import Mathlib

/-
Verification of the workbook-emailer processor pipeline (src/processor.py,
class WorkbookProcessor) against its natural-language specification.

Shallow embedding conventions:
* The filesystem is an explicit association list from paths to workbook
  contents; `fsSet` prepends, `fsGet` takes the most recent binding.
* A workbook is an association list from sheet names to sheets; a sheet is a
  grid of optional cell values (row-major, 0-indexed; the Python code uses
  1-based coordinates, a uniform shift).
* External effects (subprocess exit codes, files produced by the export tool
  and by LibreOffice, clock, tz database, copy failures) are supplied by an
  oracle record `ExtEnv`; deterministic code is translated directly.
* Python exceptions become `Except` values; an error carries the filesystem
  state at the moment of the raise.
* the dateutil function tz.gettz(name) returns None when the name is not in the tz
  database; this is modelled by the oracle `tzdb : String → Bool`, and a
  `DateTime` with `tz = none` is a naive instant.
-/

/-- Numeric value of a decimal digit character. -/
def digitVal (c : Char) : Nat := c.toNat - 48

/-- Split a character list at every occurrence of a separator
(the list-level behaviour of Python str.split with a one-character separator). -/
def splitChar (sep : Char) : List Char → List (List Char)
  | [] => [[]]
  | c :: cs =>
    let r := splitChar sep cs
    if c = sep then [] :: r
    else
      match r with
      | [] => [[c]]
      | h :: t => (c :: h) :: t

/-- Python int() on a digit string: some value when the string is a nonempty
run of decimal digits, none (a ValueError) otherwise. -/
def digitsToNatQ (cs : List Char) : Option Nat :=
  if cs ≠ [] ∧ cs.all Char.isDigit then
    some (cs.foldl (fun a c => 10 * a + digitVal c) 0)
  else none

/-- The two ints that run_vde_export reads from a time string by splitting on a colon,
none when the string is not exactly two colon-separated digit runs. -/
def parseHM (s : String) : Option (Nat × Nat) :=
  match splitChar ':' s.data with
  | [h, m] =>
    match digitsToNatQ h, digitsToNatQ m with
    | some a, some b => some (a, b)
    | _, _ => none
  | _ => none

/-- os.path.basename on a POSIX path: the characters after the last slash. -/
def basenameData (cs : List Char) : List Char :=
  cs.foldl (fun acc c => if c = '/' then [] else acc ++ [c]) []

/-- os.path.basename as a String operation. -/
def basename (s : String) : String := String.mk (basenameData s.data)

/-- os.path.dirname on a POSIX path: the characters before the last slash. -/
def dirname (s : String) : String :=
  String.mk (((s.data.reverse.dropWhile (fun c => c ≠ '/')).drop 1).reverse)

/-- os.path.join for two POSIX path components. -/
def pjoin (a b : String) : String :=
  if a.data = [] then b
  else if a.data.getLast? = some '/' then a ++ b
  else a ++ ("/" ++ b)

/-- A datetime value as the processor uses it: calendar date, wall-clock
hour and minute, and the attached tz (none means a naive instant,
which is what Python produces when tz.gettz cannot resolve the zone name). -/
structure DateTime where
  year : Nat
  month : Nat
  day : Nat
  hour : Nat
  minute : Nat
  tz : Option String
deriving DecidableEq, Repr

/-- Gregorian leap-year rule (as used by the Python datetime type). -/
def isLeap (y : Nat) : Bool := y % 4 == 0 && (y % 100 != 0 || y % 400 == 0)

/-- Days in a month (as used by the Python datetime validity check). -/
def daysInMonth (y m : Nat) : Nat :=
  if m = 2 then (if isLeap y then 29 else 28)
  else if m = 4 ∨ m = 6 ∨ m = 9 ∨ m = 11 then 30
  else 31

/-- Whether datetime(year, month, day) would construct without raising. -/
def validDate (y m d : Nat) : Bool :=
  decide (1 ≤ m) && decide (m ≤ 12) && decide (1 ≤ d) && decide (d ≤ daysInMonth y m)

/-- timedelta(days=1) addition on the calendar components. -/
def nextDay (d : DateTime) : DateTime :=
  if d.day < daysInMonth d.year d.month then
    ⟨d.year, d.month, d.day + 1, d.hour, d.minute, d.tz⟩
  else if d.month < 12 then
    ⟨d.year, d.month + 1, 1, d.hour, d.minute, d.tz⟩
  else
    ⟨d.year + 1, 1, 1, d.hour, d.minute, d.tz⟩

/-- timedelta(days=1) subtraction on the calendar components. -/
def prevDay (d : DateTime) : DateTime :=
  if 1 < d.day then
    ⟨d.year, d.month, d.day - 1, d.hour, d.minute, d.tz⟩
  else if 1 < d.month then
    ⟨d.year, d.month - 1, daysInMonth d.year (d.month - 1), d.hour, d.minute, d.tz⟩
  else
    ⟨d.year - 1, 12, 31, d.hour, d.minute, d.tz⟩

/-- dateutil tz.gettz: some zone when the tz database resolves the name,
none otherwise (attaching none to a datetime makes it naive). -/
def gettzOpt (tzdb : String → Bool) (zone : String) : Option String :=
  if tzdb zone then some zone else none

/-- Try to strip a literal character sequence from the front of a list. -/
def dropLit : List Char → List Char → Option (List Char)
  | [], rest => some rest
  | _ :: _, [] => none
  | p :: ps, c :: cs => if c = p then dropLit ps cs else none

/-- Match the regex 3895th_(digits x 6)\.xlsx at the head of the list,
returning the six captured digit characters. -/
def matchTokenAt (cs : List Char) : Option (List Char) :=
  match dropLit "3895th_".data cs with
  | none => none
  | some r1 =>
    let ds := r1.take 6
    if ds.length = 6 ∧ ds.all Char.isDigit then
      match dropLit ".xlsx".data (r1.drop 6) with
      | none => none
      | some _ => some ds
    else none

/-- re.search of 3895th_(digits x 6)\.xlsx: leftmost match anywhere in the list. -/
def searchToken : List Char → Option (List Char)
  | [] => none
  | c :: cs =>
    match matchTokenAt (c :: cs) with
    | some ds => some ds
    | none => searchToken cs

/-- The positional month/day/year parse of the six captured digits:
month = digits 0-1, day = digits 2-3, year = 2000 + digits 4-5. -/
def parseDigits : List Char → Option (Nat × Nat × Nat)
  | [m1, m2, d1, d2, y1, y2] =>
    some (10 * digitVal m1 + digitVal m2,
          10 * digitVal d1 + digitVal d2,
          2000 + (10 * digitVal y1 + digitVal y2))
  | _ => none

/-- WorkbookProcessor._extract_date_from_filename: search the basename for the
3895th_MMDDYY.xlsx token, parse positionally, return none on no match or on a
datetime ValueError (invalid month or day); the configured zone is attached
via tz.gettz. -/
def extract_date_from_filename (tzdb : String → Bool) (zone : String)
    (filename : String) : Option DateTime :=
  match searchToken (basename filename).data with
  | none => none
  | some ds =>
    match parseDigits ds with
    | none => none
    | some (m, d, y) =>
      if validDate y m d then some ⟨y, m, d, 0, 0, gettzOpt tzdb zone⟩ else none

/-- Cell values (opaque scalars as far as the processor is concerned). -/
abbrev Val := String

/-- A sheet: the used range as a row-major grid of optional cell values. -/
abbrev Sheet := List (List (Option Val))

/-- A workbook: association list from sheet names to sheets. -/
abbrev Workbook := List (String × Sheet)

/-- The filesystem: association list from paths to workbook file contents. -/
abbrev FS := List (String × Workbook)

/-- Value of a cell within one row (none beyond the used range). -/
def rowCell (row : List (Option Val)) (c : Nat) : Option Val := row.getD c none

/-- Value of a sheet cell (none beyond the used range). -/
def getCell (s : Sheet) (r c : Nat) : Option Val := rowCell (s.getD r []) c

/-- The iter_rows clearing loop: every cell value in the used range set to None. -/
def clearSheet (s : Sheet) : Sheet := s.map (fun row => row.map (fun _ => none))

/-- openpyxl cell(row, col).value assignment within one row, growing the row
as openpyxl grows the used range on assignment past its end. -/
def setInRow (row : List (Option Val)) (c : Nat) (v : Option Val) : List (Option Val) :=
  (row ++ List.replicate (c + 1 - row.length) none).set c v

/-- openpyxl cell(row, col).value assignment, growing the grid as needed. -/
def setCell (s : Sheet) (r c : Nat) (v : Option Val) : Sheet :=
  let s2 := s ++ List.replicate (r + 1 - s.length) []
  s2.set r (setInRow (s2.getD r []) c v)

/-- The inner copy loop of update_master_workbook: one source row written at
consecutive columns. -/
def writeRow : Sheet → Nat → Nat → List (Option Val) → Sheet
  | s, _, _, [] => s
  | s, r, c, v :: vs => writeRow (setCell s r c v) r (c + 1) vs

/-- The outer copy loop of update_master_workbook: source rows written at
consecutive rows, each starting at column 0. -/
def writeRows : Sheet → Nat → List (List (Option Val)) → Sheet
  | s, _, [] => s
  | s, r, row :: rows => writeRows (writeRow s r 0 row) (r + 1) rows

/-- The merge transfer of update_master_workbook: clear every value in the
destination used range, then copy the source values coordinate by coordinate. -/
def mergeSheet (src dst : Sheet) : Sheet := writeRows (clearSheet dst) 0 src

/-- Sheet lookup by name (openpyxl wb[name] / name in wb.sheetnames). -/
def wbGetSheet : Workbook → String → Option Sheet
  | [], _ => none
  | (n, sh) :: rest, q => if n = q then some sh else wbGetSheet rest q

/-- name in wb.sheetnames. -/
def wbHas (wb : Workbook) (q : String) : Bool := (wbGetSheet wb q).isSome

/-- wb[name], defaulting to an empty grid (only used after a wbHas check). -/
def wbSheet (wb : Workbook) (q : String) : Sheet := (wbGetSheet wb q).getD []

/-- Replace one sheet of a workbook (the in-place sheet mutation + save). -/
def wbSetSheet (wb : Workbook) (q : String) (sh : Sheet) : Workbook := (q, sh) :: wb

/-- File lookup (open/os.path.exists). -/
def fsGet : FS → String → Option Workbook
  | [], _ => none
  | (p, w) :: rest, q => if p = q then some w else fsGet rest q

/-- File write (save/shutil.copy destination). -/
def fsSet (fs : FS) (p : String) (w : Workbook) : FS := (p, w) :: fs

/-- The exception kinds the processor raises. -/
inductive Err where
  | runtimeError : String → Err
  | fileNotFound : String → Err
  | valueError : String → Err
deriving DecidableEq, Repr

/-- The constructor-time configuration of WorkbookProcessor. -/
structure WorkbookProcessor where
  work_dir : String
  export_script_path : String
  api_key_id : String
  api_key : String
  org_id : String
  timezone : String
  export_start_time : String
  export_end_time : String

/-- Oracle for every external effect the processor touches: the wall clock,
tz offset rendering, the export subprocess, LibreOffice, and the failure
switches for the two best-effort shutil.copy calls. -/
structure ExtEnv where
  nowWall : String → DateTime
  offsetOf : String → String
  vdeExit : Int
  vdeOutput : Option Workbook
  loAvailable : Bool
  loExit : Int
  loOutDir : List (String × Workbook)
  loCopyFails : Bool
  errorCopyFails : Bool

/-- self.venv_path = os.path.join(os.path.dirname(export_script), ".venv"). -/
def venv_path (cfg : WorkbookProcessor) : String :=
  pjoin (dirname cfg.export_script_path) ".venv"

/-- os.path.join(self.venv_path, "bin", "python"). -/
def venvPython (cfg : WorkbookProcessor) : String :=
  pjoin (pjoin (venv_path cfg) "bin") "python"

/-- The fixed raw-artifact path os.path.join(work_dir, "raw_export.xlsx"). -/
def rawPath (cfg : WorkbookProcessor) : String := pjoin cfg.work_dir "raw_export.xlsx"

/-- datetime.now(tz.gettz(zone)): wall-clock components from the oracle, the
zone attached only when the tz database resolves the name. -/
def nowIn (env : ExtEnv) (tzdb : String → Bool) (zone : String) : DateTime :=
  let w := env.nowWall zone
  ⟨w.year, w.month, w.day, w.hour, w.minute, gettzOpt tzdb zone⟩

/-- WorkbookProcessor.get_yesterday_date: now in the configured zone minus one day. -/
def get_yesterday (cfg : WorkbookProcessor) (env : ExtEnv) (tzdb : String → Bool) : DateTime :=
  prevDay (nowIn env tzdb cfg.timezone)

/-- Two-digit zero-padded decimal rendering (strftime %m/%d/%y/%H/%M fields). -/
def pad2 (n : Nat) : String := if n < 10 then "0" ++ toString n else toString n

/-- strftime("%m%d%y"). -/
def fmtMMDDYY (d : DateTime) : String :=
  pad2 d.month ++ (pad2 d.day ++ pad2 (d.year % 100))

/-- strftime("%Y-%m-%dT%H:%M:%S%z"): the %z field renders as empty for a naive
datetime and as the oracle-supplied zone offset otherwise. -/
def fmtISO (env : ExtEnv) (d : DateTime) : String :=
  toString d.year ++ ("-" ++ (pad2 d.month ++ ("-" ++ (pad2 d.day ++ ("T" ++
    (pad2 d.hour ++ (":" ++ (pad2 d.minute ++ (":00" ++
      (match d.tz with
       | none => ""
       | some z => env.offsetOf z))))))))))

/-- datetime.replace(hour=h, minute=m, second=0, microsecond=0): Python
validates the replaced fields and raises ValueError when the hour is not in
0..23 or the minute is not in 0..59; none models that ValueError. -/
def setTime (d : DateTime) (h m : Nat) : Option DateTime :=
  if h ≤ 23 ∧ m ≤ 59 then some ⟨d.year, d.month, d.day, h, m, d.tz⟩ else none

/-- The argument vector run_vde_export builds for the export subprocess. -/
def buildCmd (cfg : WorkbookProcessor) (startS endS output : String) : List String :=
  [venvPython cfg, cfg.export_script_path, "-vv", "excel",
   "--apiKeyId", cfg.api_key_id, "--apiKey", cfg.api_key, "--orgId", cfg.org_id,
   "--resourceName", "langer_fill", "--start", startS, "--end", endS,
   "--timezone", cfg.timezone, "--bucketPeriod", "PT5M", "--bucketMethod", "max",
   "--includeKeys", ".*_raw", "--output", output, "--tab", "RAW"]

/-- Python list.index guarded by an `in` test: index of the first occurrence. -/
def indexOfQ (flag : String) : List String → Option Nat
  | [] => none
  | x :: xs => if x = flag then some 0 else (indexOfQ flag xs).map (· + 1)

/-- One masking step of run_vde_export: replace the element after the first
occurrence of the flag when such an element exists. -/
def maskOne (flag : String) (l : List String) : List String :=
  match indexOfQ flag l with
  | none => l
  | some i => if i + 1 < l.length then l.set (i + 1) "<redacted>" else l

/-- The cmd_mask construction: mask after --apiKeyId, then after --apiKey. -/
def maskCmd (l : List String) : List String :=
  maskOne "--apiKey" (maskOne "--apiKeyId" l)

/-- Python " ".join. -/
def joinSpace : List String → String
  | [] => ""
  | [x] => x
  | x :: y :: xs => x ++ (" " ++ joinSpace (y :: xs))

/-- The log line run_vde_export emits for the invocation. -/
def vdeLogLine (cfg : WorkbookProcessor) (startS endS output : String) : String :=
  "Running vde.py command: " ++ joinSpace (maskCmd (buildCmd cfg startS endS output))

/-- Boolean list-level substring-as-contiguous-run test helper. -/
def isPrefixList : List Char → List Char → Bool
  | [], _ => true
  | _ :: _, [] => false
  | a :: as, b :: bs => a == b && isPrefixList as bs

/-- Whether needle occurs contiguously inside hay. -/
def isSubList (needle : List Char) : List Char → Bool
  | [] => needle.isEmpty
  | c :: t => isPrefixList needle (c :: t) || isSubList needle t

/-- Whether sub occurs as a contiguous substring of s. -/
def containsStr (s sub : String) : Bool := isSubList sub.data s.data

/-- The filesystem after the export subprocess ran: the output file of the tool
written (if the tool produced one) at the declared output path. -/
def vdeFS (env : ExtEnv) (fs : FS) (output : String) : FS :=
  match env.vdeOutput with
  | some wb => fsSet fs output wb
  | none => fs

/-- WorkbookProcessor.run_vde_export: resolve the date (yesterday when absent),
parse the window bounds (a ValueError propagates), build the window datetimes
via replace, which raises a ValueError for an out-of-range hour or minute
before the subprocess ever runs (both raises sit outside the try-block, so the
filesystem is untouched), run the subprocess, wrap a non-zero exit in a
RuntimeError, raise FileNotFoundError when the declared output does not exist
after a zero exit, else return the output path. -/
def run_vde_export (cfg : WorkbookProcessor) (env : ExtEnv) (tzdb : String → Bool)
    (fs : FS) (output_file : String) (target_date : Option DateTime) :
    Except (Err × FS) (String × FS) :=
  let d := match target_date with
    | some d0 => d0
    | none => get_yesterday cfg env tzdb
  match parseHM cfg.export_start_time, parseHM cfg.export_end_time with
  | some (sh, sm), some (eh, em) =>
    match setTime d sh sm, setTime d eh em with
    | some startT, some endT =>
      let _cmd := buildCmd cfg (fmtISO env startT) (fmtISO env endT) output_file
      let fs1 := vdeFS env fs output_file
      if env.vdeExit = 0 then
        match fsGet fs1 output_file with
        | some _ => Except.ok (output_file, fs1)
        | none => Except.error (Err.fileNotFound "vde.py ran but raw_export.xlsx was not created.", fs1)
      else Except.error (Err.runtimeError "vde.py export failed", fs1)
    | _, _ => Except.error (Err.valueError "hour must be in 0..23, minute must be in 0..59", fs)
  | _, _ => Except.error (Err.valueError "invalid export time configuration", fs)

/-- os.path.splitext(s)[0]: the name up to the last dot. -/
def stemOf (s : String) : String :=
  if '.' ∈ s.data then
    String.mk ((s.data.reverse.dropWhile (fun c => c ≠ '.')).drop 1).reverse
  else s

/-- The converted_files discovery of _recalculate_with_libreoffice: entries of
the scratch directory whose names start with the stem of the input filename. -/
def convertedList (env : ExtEnv) (path : String) : List (String × Workbook) :=
  env.loOutDir.filter (fun e => isPrefixList (stemOf (basename path)).data e.1.data)

/-- The try-block body of _recalculate_with_libreoffice: the conversion exit
code is only logged; when a prefix-matching converted file exists, copy it back
over the original (this shutil.copy may itself raise). -/
def recalcBody (env : ExtEnv) (fs : FS) (path : String) : Except Unit FS :=
  match convertedList env path with
  | [] => Except.ok fs
  | e :: _ => if env.loCopyFails then Except.error () else Except.ok (fsSet fs path e.2)

/-- WorkbookProcessor._recalculate_with_libreoffice: no-op when the capability
flag is false; every exception of the body is caught and only logged. -/
def recalculate_with_libreoffice (env : ExtEnv) (fs : FS) (path : String) : FS :=
  if env.loAvailable = false then fs
  else
    match recalcBody env fs path with
    | Except.ok fs2 => fs2
    | Except.error _ => fs

/-- The target-date resolution at the top of update_master_workbook:
explicit date, else template date + 1 day, else now in the configured zone. -/
def resolveMergeDate (cfg : WorkbookProcessor) (env : ExtEnv) (tzdb : String → Bool)
    (template : String) (t : Option DateTime) : DateTime :=
  match t with
  | some d => d
  | none =>
    match extract_date_from_filename tzdb cfg.timezone template with
    | some td => nextDay td
    | none => nowIn env tzdb cfg.timezone

/-- os.path.join(work_dir, "3895th_" + strftime("%m%d%y") + ".xlsx"). -/
def datedPath (cfg : WorkbookProcessor) (d : DateTime) : String :=
  pjoin cfg.work_dir ("3895th_" ++ (fmtMMDDYY d ++ ".xlsx"))

/-- The try-block of update_master_workbook: load both workbooks, check the
required sheet names (RAW first, then Raw Import), clear and copy, save, then
run the best-effort recalculation. Errors carry the filesystem at the raise. -/
def updateInner (env : ExtEnv) (fs : FS) (raw_file nm : String) :
    Except (Err × FS) FS :=
  match fsGet fs raw_file with
  | none => Except.error (Err.fileNotFound raw_file, fs)
  | some raw_wb =>
    match fsGet fs nm with
    | none => Except.error (Err.fileNotFound nm, fs)
    | some master_wb =>
      if wbHas raw_wb "RAW" then
        if wbHas master_wb "Raw Import" then
          let newSheet := mergeSheet (wbSheet raw_wb "RAW") (wbSheet master_wb "Raw Import")
          let fs2 := fsSet fs nm (wbSetSheet master_wb "Raw Import" newSheet)
          Except.ok (recalculate_with_libreoffice env fs2 nm)
        else Except.error (Err.valueError "Master workbook missing Raw Import sheet", fs)
      else Except.error (Err.valueError "Raw export workbook missing RAW sheet", fs)

/-- WorkbookProcessor.update_master_workbook: resolve the date, copy the
template to the dated path (a missing template raises before the try-block),
run the try-block; on its failure attempt a best-effort .error snapshot of the
dated workbook (its own failure swallowed) and re-raise the original error. -/
def update_master_workbook (cfg : WorkbookProcessor) (env : ExtEnv)
    (tzdb : String → Bool) (fs : FS) (raw_file master_template : String)
    (t : Option DateTime) : Except (Err × FS) (String × FS) :=
  let d := resolveMergeDate cfg env tzdb master_template t
  let nm := datedPath cfg d
  match fsGet fs master_template with
  | none => Except.error (Err.fileNotFound master_template, fs)
  | some twb =>
    match updateInner env (fsSet fs nm twb) raw_file nm with
    | Except.ok fs2 => Except.ok (nm, fs2)
    | Except.error (e, fs2) =>
      match fsGet fs2 nm with
      | none => Except.error (e, fs2)
      | some wb =>
        if env.errorCopyFails then Except.error (e, fs2)
        else Except.error (e, fsSet fs2 (nm ++ ".error") wb)

/-- The target-date resolution at the top of process: explicit date, else
template date + 1 day, else yesterday. -/
def resolveProcessDate (cfg : WorkbookProcessor) (env : ExtEnv) (tzdb : String → Bool)
    (template : String) (t : Option DateTime) : DateTime :=
  match t with
  | some d => d
  | none =>
    match extract_date_from_filename tzdb cfg.timezone template with
    | some td => nextDay td
    | none => get_yesterday cfg env tzdb

/-- WorkbookProcessor.process: resolve the date once, run the export to the
fixed raw path, then merge, passing the same resolved date to both steps. -/
def process (cfg : WorkbookProcessor) (env : ExtEnv) (tzdb : String → Bool)
    (fs : FS) (master_template : String) (t : Option DateTime) :
    Except (Err × FS) (String × FS) :=
  let target := resolveProcessDate cfg env tzdb master_template t
  match run_vde_export cfg env tzdb fs (rawPath cfg) (some target) with
  | Except.error ef => Except.error ef
  | Except.ok (_, fs1) =>
    update_master_workbook cfg env tzdb fs1 (rawPath cfg) master_template (some target)

def setLoExit (env : ExtEnv) (k : Int) : ExtEnv :=
  ⟨env.nowWall, env.offsetOf, env.vdeExit, env.vdeOutput, env.loAvailable, k,
   env.loOutDir, env.loCopyFails, env.errorCopyFails⟩

def withKeys (cfg : WorkbookProcessor) (kid key : String) : WorkbookProcessor :=
  ⟨cfg.work_dir, cfg.export_script_path, kid, key, cfg.org_id, cfg.timezone,
   cfg.export_start_time, cfg.export_end_time⟩

/-- A raw-export workbook with the required RAW sheet. -/
def wbRawEx : Workbook := [("RAW", [[some "a", some "b"], [some "c"]])]

/-- A master-template workbook with the required Raw Import sheet,
pre-populated with sentinel values. -/
def wbTmplEx : Workbook := [("Raw Import", [[some "s", some "s"]])]

/-- A workbook missing the RAW sheet. -/
def wbNoRawEx : Workbook := [("Sheet1", [[some "a"]])]

/-- A concrete processor configuration. -/
def cfgEx : WorkbookProcessor :=
  ⟨"/w", "/opt/vde/vde.py", "KID123", "KSECRET456", "ORG789",
   "America/New_York", "7:00", "19:00"⟩

/-- A configuration whose api_key happens to equal the fixed subcommand word. -/
def cfgKeyCollision : WorkbookProcessor :=
  ⟨"/w", "/opt/vde/vde.py", "KID123", "excel", "ORG789",
   "America/New_York", "7:00", "19:00"⟩

/-- A concrete naive wall-clock reading. -/
def dtEx : DateTime := ⟨2024, 7, 3, 12, 30, none⟩

/-- A concrete effect oracle: export succeeds producing wbRawEx, LibreOffice
unavailable, no copy failures. -/
def envEx : ExtEnv :=
  ⟨fun _ => dtEx, fun _ => "-0400", 0, some wbRawEx, false, 0, [], false, false⟩

/-- A tz database resolving exactly America/New_York. -/
def tzdbEx : String → Bool := fun z => z == "America/New_York"

/-- A tz database resolving no name at all. -/
def tzdbEmpty : String → Bool := fun _ => false

/-- A filesystem holding only the master template. -/
def fsEx : FS := [("3895th_070124.xlsx", wbTmplEx)]

def dtJul2 : DateTime := ⟨2024, 7, 2, 0, 0, none⟩

def fsC3Ex : FS := [("raw.xlsx", wbNoRawEx), ("t.xlsx", wbTmplEx)]

theorem getD_append_replicate {α : Type} (l : List α) (k i : Nat) (d : α) :
    (l ++ List.replicate k d).getD i d = l.getD i d := by
  rw [List.getD_eq_getElem?_getD, List.getD_eq_getElem?_getD, List.getElem?_append]
  split
  · rfl
  · rw [List.getElem?_replicate]
    have hnone : l[i]? = none := List.getElem?_eq_none (by omega)
    rw [hnone]
    split <;> rfl

theorem rowCell_setInRow (row : List (Option Val)) (c c' : Nat) (v : Option Val) :
    rowCell (setInRow row c v) c' = if c' = c then v else rowCell row c' := by
  unfold rowCell setInRow
  have hlen : c < (row ++ List.replicate (c + 1 - row.length) (none : Option Val)).length := by
    rw [List.length_append, List.length_replicate]; omega
  by_cases h : c' = c
  · subst h
    rw [List.getD_eq_getElem?_getD, List.getElem?_set_self hlen]
    simp
  · rw [List.getD_eq_getElem?_getD, List.getElem?_set_ne (fun hh => h hh.symm)]
    rw [← List.getD_eq_getElem?_getD, getD_append_replicate]
    simp [h]

theorem getCell_setCell (s : Sheet) (r c r' c' : Nat) (v : Option Val) :
    getCell (setCell s r c v) r' c' = if r' = r ∧ c' = c then v else getCell s r' c' := by
  unfold getCell setCell
  have hlen : r < (s ++ List.replicate (r + 1 - s.length) ([] : List (Option Val))).length := by
    rw [List.length_append, List.length_replicate]; omega
  by_cases h : r' = r
  · subst h
    rw [List.getD_eq_getElem?_getD, List.getElem?_set_self hlen, Option.getD_some]
    rw [rowCell_setInRow, getD_append_replicate]
    by_cases h2 : c' = c <;> simp [h2]
  · rw [List.getD_eq_getElem?_getD, List.getElem?_set_ne (fun hh => h hh.symm)]
    rw [← List.getD_eq_getElem?_getD, getD_append_replicate]
    simp [h]

theorem getCell_writeRow (vs : List (Option Val)) (s : Sheet) (r c r' c' : Nat) :
    getCell (writeRow s r c vs) r' c' =
      if r' = r ∧ c ≤ c' ∧ c' < c + vs.length then vs.getD (c' - c) none
      else getCell s r' c' := by
  induction vs generalizing s c with
  | nil =>
    have hneg : ¬(r' = r ∧ c ≤ c' ∧ c' < c + ([] : List (Option Val)).length) := by
      simp only [List.length_nil]; omega
    rw [if_neg hneg]
    rfl
  | cons v tl ih =>
    rw [show writeRow s r c (v :: tl) = writeRow (setCell s r c v) r (c + 1) tl from rfl]
    rw [ih, getCell_setCell]
    simp only [List.length_cons]
    rcases Nat.lt_trichotomy c' c with h | h | h
    · have h1 : ¬(r' = r ∧ c + 1 ≤ c' ∧ c' < c + 1 + tl.length) := by omega
      have h2 : ¬(r' = r ∧ c' = c) := by omega
      have h3 : ¬(r' = r ∧ c ≤ c' ∧ c' < c + (tl.length + 1)) := by omega
      rw [if_neg h1, if_neg h2, if_neg h3]
    · subst h
      have h1 : ¬(r' = r ∧ c' + 1 ≤ c' ∧ c' < c' + 1 + tl.length) := by omega
      rw [if_neg h1]
      by_cases hr : r' = r
      · rw [if_pos ⟨hr, rfl⟩, if_pos ⟨hr, Nat.le_refl c', by omega⟩]
        simp
      · rw [if_neg (by tauto), if_neg (by tauto)]
    · by_cases hr : r' = r
      · by_cases hin : c' < c + 1 + tl.length
        · rw [if_pos ⟨hr, by omega, hin⟩, if_pos ⟨hr, by omega, by omega⟩]
          have harith : c' - c = (c' - (c + 1)) + 1 := by omega
          rw [harith, List.getD_cons_succ]
        · have h1 : ¬(r' = r ∧ c + 1 ≤ c' ∧ c' < c + 1 + tl.length) := by omega
          have h2 : ¬(r' = r ∧ c' = c) := by omega
          have h3 : ¬(r' = r ∧ c ≤ c' ∧ c' < c + (tl.length + 1)) := by omega
          rw [if_neg h1, if_neg h2, if_neg h3]
      · rw [if_neg (by tauto), if_neg (by tauto), if_neg (by tauto)]

theorem getCell_writeRows (rows : List (List (Option Val))) (s : Sheet) (r r' c' : Nat) :
    getCell (writeRows s r rows) r' c' =
      if r ≤ r' ∧ r' < r + rows.length ∧ c' < (rows.getD (r' - r) []).length
      then (rows.getD (r' - r) []).getD c' none
      else getCell s r' c' := by
  induction rows generalizing s r with
  | nil =>
    have hneg : ¬(r ≤ r' ∧ r' < r + ([] : List (List (Option Val))).length ∧
        c' < (([] : List (List (Option Val))).getD (r' - r) []).length) := by
      simp only [List.length_nil]; omega
    rw [if_neg hneg]
    rfl
  | cons row tl ih =>
    rw [show writeRows s r (row :: tl) = writeRows (writeRow s r 0 row) (r + 1) tl from rfl]
    rw [ih, getCell_writeRow]
    simp only [List.length_cons]
    rcases Nat.lt_trichotomy r' r with h | h | h
    · have h1 : ¬(r + 1 ≤ r' ∧ r' < r + 1 + tl.length ∧ c' < (tl.getD (r' - (r + 1)) []).length) := by
        omega
      have h2 : ¬(r' = r ∧ 0 ≤ c' ∧ c' < 0 + row.length) := by omega
      have h3 : ¬(r ≤ r' ∧ r' < r + (tl.length + 1) ∧ c' < ((row :: tl).getD (r' - r) []).length) := by
        omega
      rw [if_neg h1, if_neg h2, if_neg h3]
    · subst h
      have h1 : ¬(r' + 1 ≤ r' ∧ r' < r' + 1 + tl.length ∧ c' < (tl.getD (r' - (r' + 1)) []).length) := by
        omega
      rw [if_neg h1]
      have hsub : r' - r' = 0 := by omega
      rw [hsub, List.getD_cons_zero]
      by_cases hin : c' < row.length
      · rw [if_pos ⟨rfl, Nat.zero_le c', by omega⟩, if_pos ⟨Nat.le_refl r', by omega, hin⟩]
        simp
      · rw [if_neg (by omega), if_neg (by omega)]
    · have hsub : r' - r = (r' - (r + 1)) + 1 := by omega
      rw [hsub, List.getD_cons_succ]
      have h2 : ¬(r' = r ∧ 0 ≤ c' ∧ c' < 0 + row.length) := by omega
      rw [if_neg h2]
      by_cases hin : r' < r + 1 + tl.length ∧ c' < (tl.getD (r' - (r + 1)) []).length
      · rw [if_pos ⟨by omega, hin.1, hin.2⟩, if_pos ⟨by omega, by omega, hin.2⟩]
      · have h1 : ¬(r + 1 ≤ r' ∧ r' < r + 1 + tl.length ∧ c' < (tl.getD (r' - (r + 1)) []).length) := by
          intro hh
          exact hin ⟨hh.2.1, hh.2.2⟩
        have h3 : ¬(r ≤ r' ∧ r' < r + (tl.length + 1) ∧ c' < (tl.getD (r' - (r + 1)) []).length) := by
          intro hh
          exact hin ⟨by omega, hh.2.2⟩
        rw [if_neg h1, if_neg h3]

theorem rowCell_clear (row : List (Option Val)) (c : Nat) :
    rowCell (row.map (fun _ => none)) c = none := by
  unfold rowCell
  rw [List.getD_eq_getElem?_getD, List.getElem?_map]
  cases row[c]? <;> rfl

theorem getCell_clearSheet (s : Sheet) (r c : Nat) : getCell (clearSheet s) r c = none := by
  unfold getCell clearSheet
  have hmap : (List.map (fun row => List.map (fun _ => (none : Option Val)) row) s).getD r [] =
      List.map (fun _ => (none : Option Val)) (s.getD r []) := by
    rw [List.getD_eq_getElem?_getD, List.getD_eq_getElem?_getD, List.getElem?_map]
    cases s[r]? <;> rfl
  rw [hmap]
  exact rowCell_clear _ _

theorem getCell_mergeSheet (src dst : Sheet) (r c : Nat) :
    getCell (mergeSheet src dst) r c = getCell src r c := by
  unfold mergeSheet
  rw [getCell_writeRows]
  split
  · rename_i hcond
    show (src.getD (r - 0) []).getD c none = getCell src r c
    rw [Nat.sub_zero]
    rfl
  · rename_i hcond
    rw [getCell_clearSheet]
    unfold getCell rowCell
    rcases Nat.lt_or_ge r src.length with hr | hr
    · rcases Nat.lt_or_ge c (src.getD r []).length with hc | hc
      · exact absurd ⟨Nat.zero_le r, by omega, by rw [Nat.sub_zero]; exact hc⟩ hcond
      · symm
        exact List.getD_eq_default _ _ hc
    · have : src.getD r [] = [] := List.getD_eq_default _ _ hr
      rw [this]
      rfl

theorem fsGet_fsSet (fs : FS) (p q : String) (w : Workbook) :
    fsGet (fsSet fs p w) q = if p = q then some w else fsGet fs q := rfl

theorem prevDay_tz (d : DateTime) : (prevDay d).tz = d.tz := by
  unfold prevDay
  split
  · rfl
  · split <;> rfl

theorem recalc_preserves_other (env : ExtEnv) (fs : FS) (p q : String)
    (h : ¬(p = q)) :
    fsGet (recalculate_with_libreoffice env fs p) q = fsGet fs q := by
  unfold recalculate_with_libreoffice recalcBody
  cases env.loAvailable with
  | false => rfl
  | true =>
    cases hc : convertedList env p with
    | nil => rfl
    | cons e t =>
      cases env.loCopyFails with
      | true => rfl
      | false =>
        show fsGet (fsSet fs p e.2) q = fsGet fs q
        rw [fsGet_fsSet, if_neg h]

theorem updateInner_error_fs (env : ExtEnv) (fs : FS) (raw nm : String)
    (e : Err) (fs2 : FS) (h : updateInner env fs raw nm = Except.error (e, fs2)) :
    fs2 = fs := by
  unfold updateInner at h
  split at h
  · cases h; rfl
  · split at h
    · cases h; rfl
    · split at h
      · split at h
        · exact Except.noConfusion h
        · cases h; rfl
      · cases h; rfl

theorem update_master_error_case (cfg : WorkbookProcessor) (env : ExtEnv)
    (tzdb : String → Bool) (fs : FS) (raw template nm : String) (t : Option DateTime)
    (twb : Workbook) (e : Err) (fs2 : FS)
    (hnm : nm = datedPath cfg (resolveMergeDate cfg env tzdb template t))
    (htmpl : fsGet fs template = some twb)
    (hfail : updateInner env (fsSet fs nm twb) raw nm = Except.error (e, fs2)) :
    fs2 = fsSet fs nm twb ∧
    fsGet fs2 nm = some twb ∧
    (env.errorCopyFails = true →
      update_master_workbook cfg env tzdb fs raw template t = Except.error (e, fs2)) ∧
    (env.errorCopyFails = false →
      update_master_workbook cfg env tzdb fs raw template t =
        Except.error (e, fsSet fs2 (nm ++ ".error") twb)) := by
  have hfs2 : fs2 = fsSet fs nm twb := updateInner_error_fs _ _ _ _ _ _ hfail
  have hget : fsGet fs2 nm = some twb := by
    rw [hfs2, fsGet_fsSet, if_pos rfl]
  refine ⟨hfs2, hget, ?_, ?_⟩
  · intro hc
    simp only [update_master_workbook, htmpl, ← hnm, hfail, hget, hc]
    rfl
  · intro hc
    simp only [update_master_workbook, htmpl, ← hnm, hfail, hget, hc]
    rfl

theorem updateInner_missing_sheet (env : ExtEnv) (fs : FS) (raw nm : String)
    (rwb mwb : Workbook)
    (hraw : fsGet fs raw = some rwb)
    (hm : fsGet fs nm = some mwb)
    (hmiss : wbHas rwb "RAW" = false ∨ wbHas mwb "Raw Import" = false) :
    ∃ msg, updateInner env fs raw nm = Except.error (Err.valueError msg, fs) := by
  rcases hmiss with h | h
  · refine ⟨"Raw export workbook missing RAW sheet", ?_⟩
    simp [updateInner, hraw, hm, h]
  · by_cases h2 : wbHas rwb "RAW" = true
    · refine ⟨"Master workbook missing Raw Import sheet", ?_⟩
      simp [updateInner, hraw, hm, h2, h]
    · refine ⟨"Raw export workbook missing RAW sheet", ?_⟩
      simp [updateInner, hraw, hm, h2]

theorem setTime_of_le (sh sm : Nat) (hsh : sh ≤ 23) (hsm : sm ≤ 59) (dd : DateTime) :
    setTime dd sh sm = some ⟨dd.year, dd.month, dd.day, sh, sm, dd.tz⟩ := by
  unfold setTime
  rw [if_pos ⟨hsh, hsm⟩]

theorem run_vde_ok (cfg : WorkbookProcessor) (env : ExtEnv) (tzdb : String → Bool)
    (fs : FS) (output : String) (t : Option DateTime) (sh sm eh em : Nat)
    (hs : parseHM cfg.export_start_time = some (sh, sm))
    (he : parseHM cfg.export_end_time = some (eh, em))
    (hsh : sh ≤ 23) (hsm : sm ≤ 59) (heh : eh ≤ 23) (hem : em ≤ 59)
    (h0 : env.vdeExit = 0)
    (h1 : (fsGet (vdeFS env fs output) output).isSome = true) :
    run_vde_export cfg env tzdb fs output t = Except.ok (output, vdeFS env fs output) := by
  obtain ⟨w, hw⟩ := Option.isSome_iff_exists.mp h1
  simp only [run_vde_export, hs, he, setTime_of_le sh sm hsh hsm, setTime_of_le eh em heh hem]
  rw [if_pos h0, hw]

theorem update_master_ok (cfg : WorkbookProcessor) (env : ExtEnv) (tzdb : String → Bool)
    (fs : FS) (raw template : String) (t : Option DateTime) (rwb twb : Workbook)
    (htmpl : fsGet fs template = some twb)
    (hraw : fsGet fs raw = some rwb)
    (hne : ¬(raw = datedPath cfg (resolveMergeDate cfg env tzdb template t)))
    (hrawSheet : wbHas rwb "RAW" = true)
    (hmSheet : wbHas twb "Raw Import" = true) :
    update_master_workbook cfg env tzdb fs raw template t =
      Except.ok (datedPath cfg (resolveMergeDate cfg env tzdb template t),
        recalculate_with_libreoffice env
          (fsSet (fsSet fs (datedPath cfg (resolveMergeDate cfg env tzdb template t)) twb)
            (datedPath cfg (resolveMergeDate cfg env tzdb template t))
            (wbSetSheet twb "Raw Import"
              (mergeSheet (wbSheet rwb "RAW") (wbSheet twb "Raw Import"))))
          (datedPath cfg (resolveMergeDate cfg env tzdb template t))) := by
  have hraw1 : fsGet (fsSet fs (datedPath cfg (resolveMergeDate cfg env tzdb template t)) twb) raw =
      some rwb := by
    rw [fsGet_fsSet, if_neg (fun hh => hne hh.symm), hraw]
  have hm1 : fsGet (fsSet fs (datedPath cfg (resolveMergeDate cfg env tzdb template t)) twb)
      (datedPath cfg (resolveMergeDate cfg env tzdb template t)) = some twb := by
    rw [fsGet_fsSet, if_pos rfl]
  simp [update_master_workbook, htmpl, updateInner, hraw1, hm1, hrawSheet, hmSheet]

theorem getLast_append_of_ne_nil (a b : String) (hb : b.data ≠ []) :
    (a ++ b).data.getLast? = b.data.getLast? := by
  rw [String.data_append, List.getLast?_append]
  cases h2 : b.data.getLast? with
  | none => exact absurd (List.getLast?_eq_none_iff.mp h2) hb
  | some x => rfl

theorem pjoin_last (a b : String) (hb : b.data ≠ []) :
    (pjoin a b).data.getLast? = b.data.getLast? := by
  unfold pjoin
  split
  · rfl
  · split
    · exact getLast_append_of_ne_nil a b hb
    · rw [getLast_append_of_ne_nil a ("/" ++ b) (by rw [String.data_append]; simp)]
      exact getLast_append_of_ne_nil "/" b hb

theorem venvPython_last (cfg : WorkbookProcessor) :
    (venvPython cfg).data.getLast? = some 'n' := by
  unfold venvPython
  rw [pjoin_last _ "python" (by decide)]
  decide

theorem venvPython_ne_keyId (cfg : WorkbookProcessor) : ¬(venvPython cfg = "--apiKeyId") := by
  intro h
  have h2 := venvPython_last cfg
  rw [h] at h2
  exact absurd h2 (by decide)

theorem venvPython_ne_key (cfg : WorkbookProcessor) : ¬(venvPython cfg = "--apiKey") := by
  intro h
  have h2 := venvPython_last cfg
  rw [h] at h2
  exact absurd h2 (by decide)

theorem maskCmd_buildCmd (cfg : WorkbookProcessor) (s e o : String)
    (h1 : ¬(cfg.export_script_path = "--apiKeyId"))
    (h2 : ¬(cfg.export_script_path = "--apiKey")) :
    maskCmd (buildCmd cfg s e o) =
      ((buildCmd cfg s e o).set 5 "<redacted>").set 7 "<redacted>" := by
  have hv1 := venvPython_ne_keyId cfg
  have hv2 := venvPython_ne_key cfg
  simp [maskCmd, maskOne, indexOfQ, buildCmd, hv1, hv2, h1, h2]

/-- C1: for template 3895th_070124.xlsx with no explicit date, process resolves
the target date to 2024-07-02 (template date plus one day), passes that same
once-resolved date to both the export and the merge step (running it with an
explicit 2024-07-02 is identical), writes the raw artifact at the fixed
join(work_dir, raw_export.xlsx) path, and returns the dated workbook path
join(work_dir, 3895th_070224.xlsx). Stated for a well-formed configuration:
window times parseable and within the ranges datetime.replace accepts (an
out-of-range time raises a ValueError before the export, which the embedding
models and these hypotheses exclude) and an environment in which both external
steps succeed. -/
theorem process_template_date_pipeline (cfg : WorkbookProcessor) (env : ExtEnv)
    (tzdb : String → Bool) (fs : FS) (rwb twb : Workbook) (sh sm eh em : Nat)
    (hs : parseHM cfg.export_start_time = some (sh, sm))
    (he : parseHM cfg.export_end_time = some (eh, em))
    (hsh : sh ≤ 23) (hsm : sm ≤ 59) (heh : eh ≤ 23) (hem : em ≤ 59)
    (hexit : env.vdeExit = 0)
    (hrawBuilt : fsGet (vdeFS env fs (rawPath cfg)) (rawPath cfg) = some rwb)
    (hrawSheet : wbHas rwb "RAW" = true)
    (htmpl : fsGet (vdeFS env fs (rawPath cfg)) "3895th_070124.xlsx" = some twb)
    (htmplSheet : wbHas twb "Raw Import" = true)
    (hne : ¬(rawPath cfg = pjoin cfg.work_dir "3895th_070224.xlsx")) :
    resolveProcessDate cfg env tzdb "3895th_070124.xlsx" none =
      ⟨2024, 7, 2, 0, 0, gettzOpt tzdb cfg.timezone⟩ ∧
    process cfg env tzdb fs "3895th_070124.xlsx" none =
      process cfg env tzdb fs "3895th_070124.xlsx"
        (some ⟨2024, 7, 2, 0, 0, gettzOpt tzdb cfg.timezone⟩) ∧
    ∃ fsOut,
      process cfg env tzdb fs "3895th_070124.xlsx" none =
        Except.ok (pjoin cfg.work_dir "3895th_070224.xlsx", fsOut) ∧
      fsGet fsOut (rawPath cfg) = some rwb := by
  have ha : resolveProcessDate cfg env tzdb "3895th_070124.xlsx" none =
      ⟨2024, 7, 2, 0, 0, gettzOpt tzdb cfg.timezone⟩ := rfl
  have hfmt : fmtMMDDYY (⟨2024, 7, 2, 0, 0, gettzOpt tzdb cfg.timezone⟩ : DateTime) =
      "070224" := by
    show pad2 7 ++ (pad2 2 ++ pad2 (2024 % 100)) = "070224"
    decide
  have hpath : datedPath cfg (⟨2024, 7, 2, 0, 0, gettzOpt tzdb cfg.timezone⟩ : DateTime) =
      pjoin cfg.work_dir "3895th_070224.xlsx" := by
    unfold datedPath
    rw [hfmt]
    exact congrArg (pjoin cfg.work_dir) (by decide)
  have hrm : resolveMergeDate cfg env tzdb "3895th_070124.xlsx"
      (some ⟨2024, 7, 2, 0, 0, gettzOpt tzdb cfg.timezone⟩) =
      (⟨2024, 7, 2, 0, 0, gettzOpt tzdb cfg.timezone⟩ : DateTime) := rfl
  have hnm : datedPath cfg (resolveMergeDate cfg env tzdb "3895th_070124.xlsx"
      (some ⟨2024, 7, 2, 0, 0, gettzOpt tzdb cfg.timezone⟩)) =
      pjoin cfg.work_dir "3895th_070224.xlsx" := by rw [hrm, hpath]
  have hne2 : ¬(rawPath cfg = datedPath cfg (resolveMergeDate cfg env tzdb
      "3895th_070124.xlsx" (some ⟨2024, 7, 2, 0, 0, gettzOpt tzdb cfg.timezone⟩))) := by
    rw [hnm]; exact hne
  have hvde := run_vde_ok cfg env tzdb fs (rawPath cfg)
    (some ⟨2024, 7, 2, 0, 0, gettzOpt tzdb cfg.timezone⟩) sh sm eh em hs he
    hsh hsm heh hem hexit (by rw [hrawBuilt]; rfl)
  have hupd := update_master_ok cfg env tzdb (vdeFS env fs (rawPath cfg)) (rawPath cfg)
    "3895th_070124.xlsx" (some ⟨2024, 7, 2, 0, 0, gettzOpt tzdb cfg.timezone⟩) rwb twb
    htmpl hrawBuilt hne2 hrawSheet htmplSheet
  have hproc : process cfg env tzdb fs "3895th_070124.xlsx" none =
      update_master_workbook cfg env tzdb (vdeFS env fs (rawPath cfg)) (rawPath cfg)
        "3895th_070124.xlsx" (some ⟨2024, 7, 2, 0, 0, gettzOpt tzdb cfg.timezone⟩) := by
    simp only [process, ha, hvde]
  have hsome : resolveProcessDate cfg env tzdb "3895th_070124.xlsx"
      (some (⟨2024, 7, 2, 0, 0, gettzOpt tzdb cfg.timezone⟩ : DateTime)) =
      (⟨2024, 7, 2, 0, 0, gettzOpt tzdb cfg.timezone⟩ : DateTime) := rfl
  refine ⟨ha, ?_, ?_⟩
  · simp only [process, ha, hsome]
  · refine ⟨recalculate_with_libreoffice env
      (fsSet (fsSet (vdeFS env fs (rawPath cfg))
        (datedPath cfg (resolveMergeDate cfg env tzdb "3895th_070124.xlsx"
          (some ⟨2024, 7, 2, 0, 0, gettzOpt tzdb cfg.timezone⟩))) twb)
        (datedPath cfg (resolveMergeDate cfg env tzdb "3895th_070124.xlsx"
          (some ⟨2024, 7, 2, 0, 0, gettzOpt tzdb cfg.timezone⟩)))
        (wbSetSheet twb "Raw Import"
          (mergeSheet (wbSheet rwb "RAW") (wbSheet twb "Raw Import"))))
      (datedPath cfg (resolveMergeDate cfg env tzdb "3895th_070124.xlsx"
        (some ⟨2024, 7, 2, 0, 0, gettzOpt tzdb cfg.timezone⟩))), ?_, ?_⟩
    · rw [hproc, hupd, hnm]
    · have hnmne : ¬(datedPath cfg (resolveMergeDate cfg env tzdb "3895th_070124.xlsx"
          (some ⟨2024, 7, 2, 0, 0, gettzOpt tzdb cfg.timezone⟩)) = rawPath cfg) := by
        rw [hnm]; exact fun hh => hne hh.symm
      rw [recalc_preserves_other _ _ _ _ hnmne]
      rw [fsGet_fsSet, if_neg hnmne, fsGet_fsSet, if_neg hnmne]
      exact hrawBuilt

theorem process_template_date_pipeline_witness :
    resolveProcessDate cfgEx envEx tzdbEx "3895th_070124.xlsx" none =
      ⟨2024, 7, 2, 0, 0, gettzOpt tzdbEx cfgEx.timezone⟩ ∧
    process cfgEx envEx tzdbEx fsEx "3895th_070124.xlsx" none =
      process cfgEx envEx tzdbEx fsEx "3895th_070124.xlsx"
        (some ⟨2024, 7, 2, 0, 0, gettzOpt tzdbEx cfgEx.timezone⟩) ∧
    ∃ fsOut,
      process cfgEx envEx tzdbEx fsEx "3895th_070124.xlsx" none =
        Except.ok (pjoin cfgEx.work_dir "3895th_070224.xlsx", fsOut) ∧
      fsGet fsOut (rawPath cfgEx) = some wbRawEx :=
  process_template_date_pipeline cfgEx envEx tzdbEx fsEx wbRawEx wbTmplEx 7 0 19 0
    (by decide) (by decide) (by decide) (by decide) (by decide) (by decide) rfl
    (by decide) (by decide) (by decide) (by decide) (by decide)

/-- C2: run_vde_export fails exactly when the export subprocess exits non-zero
or the declared output file does not exist after a zero exit; on a zero exit
with the output present it returns the output path (with the write the tool
performed). Stated for well-formed configured window times: parseable, with
the hour in 0..23 and the minute in 0..59 as datetime.replace requires — an
out-of-range time makes the program raise a ValueError before the subprocess
runs, which the embedding models and these hypotheses exclude. -/
theorem run_vde_export_error_iff (cfg : WorkbookProcessor) (env : ExtEnv)
    (tzdb : String → Bool) (fs : FS) (output : String) (t : Option DateTime)
    (sh sm eh em : Nat)
    (hs : parseHM cfg.export_start_time = some (sh, sm))
    (he : parseHM cfg.export_end_time = some (eh, em))
    (hsh : sh ≤ 23) (hsm : sm ≤ 59) (heh : eh ≤ 23) (hem : em ≤ 59) :
    (env.vdeExit = 0 ∧ (fsGet (vdeFS env fs output) output).isSome = true →
      run_vde_export cfg env tzdb fs output t =
        Except.ok (output, vdeFS env fs output)) ∧
    (env.vdeExit ≠ 0 ∨ fsGet (vdeFS env fs output) output = none →
      ∃ e fs2, run_vde_export cfg env tzdb fs output t = Except.error (e, fs2)) := by
  constructor
  · rintro ⟨h0, h1⟩
    exact run_vde_ok cfg env tzdb fs output t sh sm eh em hs he hsh hsm heh hem h0 h1
  · rintro (h0 | h1)
    · simp only [run_vde_export, hs, he, setTime_of_le sh sm hsh hsm,
        setTime_of_le eh em heh hem]
      rw [if_neg h0]
      exact ⟨_, _, rfl⟩
    · by_cases h0 : env.vdeExit = 0
      · simp only [run_vde_export, hs, he, setTime_of_le sh sm hsh hsm,
          setTime_of_le eh em heh hem]
        rw [if_pos h0, h1]
        exact ⟨_, _, rfl⟩
      · simp only [run_vde_export, hs, he, setTime_of_le sh sm hsh hsm,
          setTime_of_le eh em heh hem]
        rw [if_neg h0]
        exact ⟨_, _, rfl⟩

theorem run_vde_export_error_iff_witness :
    run_vde_export cfgEx envEx tzdbEx [] "/w/raw_export.xlsx" none =
      Except.ok ("/w/raw_export.xlsx", vdeFS envEx [] "/w/raw_export.xlsx") :=
  (run_vde_export_error_iff cfgEx envEx tzdbEx [] "/w/raw_export.xlsx" none
    7 0 19 0 (by decide) (by decide) (by decide) (by decide) (by decide)
    (by decide)).1 ⟨rfl, by decide⟩

/-- C3: when the raw workbook lacks a sheet named RAW or the dated copy lacks
a sheet named Raw Import, update_master_workbook raises a ValueError and the
dated workbook file still holds the unmodified template content: both
named-sheet checks run before any cell mutation reaches the file. -/
theorem update_master_checks_before_mutation (cfg : WorkbookProcessor)
    (env : ExtEnv) (tzdb : String → Bool) (fs : FS) (raw template : String)
    (t : Option DateTime) (rwb twb : Workbook)
    (hraw : fsGet fs raw = some rwb)
    (htmpl : fsGet fs template = some twb)
    (hne : ¬(raw = datedPath cfg (resolveMergeDate cfg env tzdb template t)))
    (hmiss : wbHas rwb "RAW" = false ∨ wbHas twb "Raw Import" = false) :
    ∃ msg fs3,
      update_master_workbook cfg env tzdb fs raw template t =
        Except.error (Err.valueError msg, fs3) ∧
      fsGet fs3 (datedPath cfg (resolveMergeDate cfg env tzdb template t)) = some twb := by
  have hraw1 : fsGet (fsSet fs (datedPath cfg (resolveMergeDate cfg env tzdb template t)) twb) raw = some rwb := by
    rw [fsGet_fsSet, if_neg (fun hh => hne hh.symm), hraw]
  have hm1 : fsGet (fsSet fs (datedPath cfg (resolveMergeDate cfg env tzdb template t)) twb)
      (datedPath cfg (resolveMergeDate cfg env tzdb template t)) = some twb := by
    rw [fsGet_fsSet, if_pos rfl]
  obtain ⟨msg, hinner⟩ := updateInner_missing_sheet env _ raw _ rwb twb hraw1 hm1 hmiss
  obtain ⟨hfs2, hget, hcaseT, hcaseF⟩ :=
    update_master_error_case cfg env tzdb fs raw template _ t twb (Err.valueError msg) _
      rfl htmpl hinner
  cases hce : env.errorCopyFails with
  | true => exact ⟨msg, _, hcaseT hce, hget⟩
  | false =>
    refine ⟨msg, _, hcaseF hce, ?_⟩
    rw [fsGet_fsSet]
    split
    · rfl
    · exact hget

theorem update_master_checks_before_mutation_witness :
    ∃ msg fs3,
      update_master_workbook cfgEx envEx tzdbEx fsC3Ex "raw.xlsx" "t.xlsx" (some dtJul2) =
        Except.error (Err.valueError msg, fs3) ∧
      fsGet fs3 (datedPath cfgEx (resolveMergeDate cfgEx envEx tzdbEx "t.xlsx" (some dtJul2))) =
        some wbTmplEx :=
  update_master_checks_before_mutation cfgEx envEx tzdbEx fsC3Ex "raw.xlsx" "t.xlsx"
    (some dtJul2) wbNoRawEx wbTmplEx (by decide) (by decide) (by decide) (Or.inl (by decide))

/-- C4: after a merge, every cell of the destination that lay in the
pre-existing used range holds the source value at the identical coordinate
(none, i.e. blank, beyond the source extent), the clearing pass having set
every pre-existing value to none first. -/
theorem merge_overwrites_preexisting_cells (src dst : Sheet) (r c : Nat)
    (_hr : r < dst.length) (_hc : c < (dst.getD r []).length) :
    getCell (mergeSheet src dst) r c = getCell src r c ∧
    getCell (clearSheet dst) r c = none :=
  ⟨getCell_mergeSheet src dst r c, getCell_clearSheet dst r c⟩

theorem merge_overwrites_preexisting_cells_witness :
    getCell (mergeSheet [[some "x"]] [[some "s", some "s"]]) 0 1 =
      getCell [[some "x"]] 0 1 ∧
    getCell (clearSheet [[some "s", some "s"]]) 0 1 = none :=
  merge_overwrites_preexisting_cells [[some "x"]] [[some "s", some "s"]] 0 1
    (by decide) (by decide)

/-- C5: when the try-block of update_master_workbook fails after the template
copy, the original error is re-raised unchanged; when the best-effort .error
snapshot copy succeeds, the snapshot holds exactly the content of the dated workbook
at failure time, and when that copy itself raises, the failure is swallowed and
the same original error is still what reaches the caller. -/
theorem update_master_error_snapshot (cfg : WorkbookProcessor) (env : ExtEnv)
    (tzdb : String → Bool) (fs : FS) (raw template : String) (t : Option DateTime)
    (twb : Workbook) (e : Err) (fs2 : FS)
    (htmpl : fsGet fs template = some twb)
    (hfail : updateInner env
        (fsSet fs (datedPath cfg (resolveMergeDate cfg env tzdb template t)) twb) raw
        (datedPath cfg (resolveMergeDate cfg env tzdb template t)) =
      Except.error (e, fs2)) :
    (env.errorCopyFails = false →
      update_master_workbook cfg env tzdb fs raw template t =
        Except.error (e, fsSet fs2
          (datedPath cfg (resolveMergeDate cfg env tzdb template t) ++ ".error") twb) ∧
      fsGet (fsSet fs2
          (datedPath cfg (resolveMergeDate cfg env tzdb template t) ++ ".error") twb)
        (datedPath cfg (resolveMergeDate cfg env tzdb template t) ++ ".error") =
        fsGet fs2 (datedPath cfg (resolveMergeDate cfg env tzdb template t))) ∧
    (env.errorCopyFails = true →
      update_master_workbook cfg env tzdb fs raw template t = Except.error (e, fs2)) := by
  obtain ⟨hfs2, hget, hcaseT, hcaseF⟩ :=
    update_master_error_case cfg env tzdb fs raw template _ t twb e fs2 rfl htmpl hfail
  refine ⟨fun hc => ⟨hcaseF hc, ?_⟩, hcaseT⟩
  rw [fsGet_fsSet, if_pos rfl, hget]

theorem update_master_error_snapshot_witness :
    update_master_workbook cfgEx envEx tzdbEx fsC3Ex "raw.xlsx" "t.xlsx" (some dtJul2) =
      Except.error (Err.valueError "Raw export workbook missing RAW sheet",
        fsSet
          (fsSet fsC3Ex
            (datedPath cfgEx (resolveMergeDate cfgEx envEx tzdbEx "t.xlsx" (some dtJul2)))
            wbTmplEx)
          (datedPath cfgEx (resolveMergeDate cfgEx envEx tzdbEx "t.xlsx" (some dtJul2)) ++
            ".error") wbTmplEx) :=
  ((update_master_error_snapshot cfgEx envEx tzdbEx fsC3Ex "raw.xlsx" "t.xlsx" (some dtJul2)
    wbTmplEx (Err.valueError "Raw export workbook missing RAW sheet")
    (fsSet fsC3Ex
      (datedPath cfgEx (resolveMergeDate cfgEx envEx tzdbEx "t.xlsx" (some dtJul2)))
      wbTmplEx)
    (by decide) rfl).1 rfl).1

/-- C6 counterexample: with the api_key configured as the literal word excel,
the masked log line still contains the configured api_key as a substring (it
coincides with the fixed subcommand word), so the claim, universally
quantified over configured values, is false on this input. -/
theorem masked_log_contains_key_counterexample :
    containsStr
      (vdeLogLine cfgKeyCollision "2024-07-02T07:00:00-0400"
        "2024-07-02T19:00:00-0400" "/w/raw_export.xlsx")
      cfgKeyCollision.api_key = true := by decide

/-- C6 amended: provided the configured export script path is not itself one
of the two flag words (with a script path literally equal to --apiKeyId or
--apiKey, the first-occurrence search of the masking code picks the wrong
element and a secret is logged in plaintext), the elements following
--apiKeyId and --apiKey in the logged command read redacted, the logged line
is identical for any two configurations that differ only in their
api_key/api_key_id (no information about the secrets reaches the log), and
consequently a configured secret occurs in the logged line only when it also
occurs in the line computed with both secrets erased, i.e. only by coinciding
with fixed non-secret content. -/
theorem masked_log_noninterference (cfg : WorkbookProcessor)
    (kid1 key1 kid2 key2 s e o : String)
    (h1 : ¬(cfg.export_script_path = "--apiKeyId"))
    (h2 : ¬(cfg.export_script_path = "--apiKey")) :
    (maskCmd (buildCmd cfg s e o))[5]? = some "<redacted>" ∧
    (maskCmd (buildCmd cfg s e o))[7]? = some "<redacted>" ∧
    vdeLogLine (withKeys cfg kid1 key1) s e o =
      vdeLogLine (withKeys cfg kid2 key2) s e o ∧
    (containsStr (vdeLogLine cfg s e o) cfg.api_key = true →
      containsStr (vdeLogLine (withKeys cfg "" "") s e o) cfg.api_key = true) ∧
    (containsStr (vdeLogLine cfg s e o) cfg.api_key_id = true →
      containsStr (vdeLogLine (withKeys cfg "" "") s e o) cfg.api_key_id = true) := by
  have hlen : (buildCmd cfg s e o).length = 28 := rfl
  have hmask := maskCmd_buildCmd cfg s e o h1 h2
  have hm5 : (maskCmd (buildCmd cfg s e o))[5]? = some "<redacted>" := by
    rw [hmask, List.getElem?_set_ne (by decide),
      List.getElem?_set_self (by rw [hlen]; decide)]
  have hm7 : (maskCmd (buildCmd cfg s e o))[7]? = some "<redacted>" := by
    rw [hmask, List.getElem?_set_self (by rw [List.length_set, hlen]; decide)]
  have hnon : ∀ a b c d : String,
      vdeLogLine (withKeys cfg a b) s e o = vdeLogLine (withKeys cfg c d) s e o := by
    intro a b c d
    unfold vdeLogLine
    rw [maskCmd_buildCmd (withKeys cfg a b) s e o h1 h2,
      maskCmd_buildCmd (withKeys cfg c d) s e o h1 h2]
    rfl
  have hself : vdeLogLine cfg s e o = vdeLogLine (withKeys cfg "" "") s e o :=
    hnon cfg.api_key_id cfg.api_key "" ""
  refine ⟨hm5, hm7, hnon kid1 key1 kid2 key2, ?_, ?_⟩
  · intro hc
    rw [← hself]
    exact hc
  · intro hc
    rw [← hself]
    exact hc

theorem masked_log_noninterference_witness :
    (maskCmd (buildCmd cfgEx "S" "E" "O"))[5]? = some "<redacted>" ∧
    (maskCmd (buildCmd cfgEx "S" "E" "O"))[7]? = some "<redacted>" ∧
    vdeLogLine (withKeys cfgEx "A" "B") "S" "E" "O" =
      vdeLogLine (withKeys cfgEx "C" "D") "S" "E" "O" ∧
    (containsStr (vdeLogLine cfgEx "S" "E" "O") cfgEx.api_key = true →
      containsStr (vdeLogLine (withKeys cfgEx "" "") "S" "E" "O") cfgEx.api_key = true) ∧
    (containsStr (vdeLogLine cfgEx "S" "E" "O") cfgEx.api_key_id = true →
      containsStr (vdeLogLine (withKeys cfgEx "" "") "S" "E" "O") cfgEx.api_key_id = true) :=
  masked_log_noninterference cfgEx "A" "B" "C" "D" "S" "E" "O" (by decide) (by decide)

/-- C7: the recalculation step is best-effort: it is a total function (every
failure of the body is swallowed), it leaves the filesystem unchanged when the
capability flag is false, when no converted file matches the stem of the input
filename, or when the copy-back raises, and the exit code of the engine has no
effect at all. -/
theorem recalculate_best_effort (env : ExtEnv) (fs : FS) (path : String) :
    (env.loAvailable = false → recalculate_with_libreoffice env fs path = fs) ∧
    (convertedList env path = [] → recalculate_with_libreoffice env fs path = fs) ∧
    (env.loCopyFails = true → recalculate_with_libreoffice env fs path = fs) ∧
    (∀ k : Int, recalculate_with_libreoffice (setLoExit env k) fs path =
      recalculate_with_libreoffice env fs path) := by
  refine ⟨?_, ?_, ?_, fun k => rfl⟩
  · intro h
    unfold recalculate_with_libreoffice
    rw [if_pos h]
  · intro h
    unfold recalculate_with_libreoffice recalcBody
    rw [h]
    split <;> rfl
  · intro h
    unfold recalculate_with_libreoffice recalcBody
    rw [h]
    cases hc : convertedList env path
    · split <;> rfl
    · split <;> rfl

theorem recalculate_best_effort_witness :
    recalculate_with_libreoffice envEx [] "f.xlsx" = [] :=
  (recalculate_best_effort envEx [] "f.xlsx").1 rfl

/-- C8: date extraction from a filename never raises: it yields none whenever
the token search fails on the basename or the six digits are not a valid
month/day date, and on the two reference inputs it yields July 1 2024 in the
configured zone and none respectively. -/
theorem extract_date_total_fallback (tzdb : String → Bool) (zone fname : String) :
    (searchToken (basename fname).data = none →
      extract_date_from_filename tzdb zone fname = none) ∧
    (∀ ds m d y, searchToken (basename fname).data = some ds →
      parseDigits ds = some (m, d, y) → validDate y m d = false →
      extract_date_from_filename tzdb zone fname = none) ∧
    extract_date_from_filename tzdb zone "3895th_070124.xlsx" =
      some ⟨2024, 7, 1, 0, 0, gettzOpt tzdb zone⟩ ∧
    extract_date_from_filename tzdb zone "notes.xlsx" = none := by
  refine ⟨?_, ?_, rfl, rfl⟩
  · intro h
    unfold extract_date_from_filename
    rw [h]
  · intro ds m d y h1 h2 h3
    unfold extract_date_from_filename
    rw [h1]
    simp [h2, h3]

theorem extract_date_total_fallback_witness :
    extract_date_from_filename tzdbEx "America/New_York" "notes.xlsx" = none ∧
    extract_date_from_filename tzdbEx "America/New_York" "3895th_139999.xlsx" = none :=
  ⟨(extract_date_total_fallback tzdbEx "America/New_York" "notes.xlsx").1 (by decide),
   (extract_date_total_fallback tzdbEx "America/New_York" "3895th_139999.xlsx").2.1
     ['1', '3', '9', '9', '9', '9'] 13 99 2099 (by decide) (by decide) (by decide)⟩

/-- C9 counterexample: with a tz database that does not resolve the configured
zone name (dateutil gettz returns None for unknown names), the extracted
Business Date is naive, refuting the claim for every configured name. -/
theorem business_date_naive_counterexample :
    (extract_date_from_filename tzdbEmpty "Not/AZone" "3895th_070124.xlsx").map
      DateTime.tz = some none := rfl

/-- C9 amended: for every configured timezone name that the tz database
resolves, every Business Date the system produces (filename extraction,
the yesterday fallback, and the current-date fallback of the merger) carries the
configured zone, never a naive instant. -/
theorem business_date_tz_aware (cfg : WorkbookProcessor) (env : ExtEnv)
    (tzdb : String → Bool) (h : tzdb cfg.timezone = true) :
    (∀ f d, extract_date_from_filename tzdb cfg.timezone f = some d →
      d.tz = some cfg.timezone) ∧
    (get_yesterday cfg env tzdb).tz = some cfg.timezone ∧
    (nowIn env tzdb cfg.timezone).tz = some cfg.timezone := by
  have hzone : gettzOpt tzdb cfg.timezone = some cfg.timezone := by
    unfold gettzOpt
    rw [h]
    rfl
  refine ⟨?_, ?_, ?_⟩
  · intro f d hd
    unfold extract_date_from_filename at hd
    split at hd
    · exact absurd hd (by simp)
    · split at hd
      · exact absurd hd (by simp)
      · split at hd
        · cases hd
          exact hzone
        · exact absurd hd (by simp)
  · unfold get_yesterday
    rw [prevDay_tz]
    exact hzone
  · exact hzone

theorem business_date_tz_aware_witness :
    (get_yesterday cfgEx envEx tzdbEx).tz = some cfgEx.timezone :=
  (business_date_tz_aware cfgEx envEx tzdbEx (by decide)).2.1

/-- C10: under a sane configuration (the script path is not itself one of the
two flag words, and the secrets are not the redaction marker), the masked
command run_vde_export logs differs from the executed command in exactly the
two elements immediately following --apiKeyId and --apiKey, which read
redacted; every other element, including org id, window bounds and output
path, is logged identically to what is executed. -/
theorem masked_cmd_differs_only_at_secrets (cfg : WorkbookProcessor) (s e o : String)
    (h1 : ¬(cfg.export_script_path = "--apiKeyId"))
    (h2 : ¬(cfg.export_script_path = "--apiKey"))
    (h3 : ¬(cfg.api_key_id = "<redacted>"))
    (h4 : ¬(cfg.api_key = "<redacted>")) :
    (buildCmd cfg s e o)[4]? = some "--apiKeyId" ∧
    (buildCmd cfg s e o)[6]? = some "--apiKey" ∧
    (maskCmd (buildCmd cfg s e o))[5]? = some "<redacted>" ∧
    (maskCmd (buildCmd cfg s e o))[7]? = some "<redacted>" ∧
    ¬((maskCmd (buildCmd cfg s e o))[5]? = (buildCmd cfg s e o)[5]?) ∧
    ¬((maskCmd (buildCmd cfg s e o))[7]? = (buildCmd cfg s e o)[7]?) ∧
    ∀ i, ¬(i = 5) → ¬(i = 7) →
      (maskCmd (buildCmd cfg s e o))[i]? = (buildCmd cfg s e o)[i]? := by
  have hlen : (buildCmd cfg s e o).length = 28 := rfl
  have h5 : (buildCmd cfg s e o)[5]? = some cfg.api_key_id := rfl
  have h7 : (buildCmd cfg s e o)[7]? = some cfg.api_key := rfl
  rw [maskCmd_buildCmd cfg s e o h1 h2]
  have hm5 : (((buildCmd cfg s e o).set 5 "<redacted>").set 7 "<redacted>")[5]? =
      some "<redacted>" := by
    rw [List.getElem?_set_ne (by decide), List.getElem?_set_self (by rw [hlen]; decide)]
  have hm7 : (((buildCmd cfg s e o).set 5 "<redacted>").set 7 "<redacted>")[7]? =
      some "<redacted>" := by
    rw [List.getElem?_set_self (by rw [List.length_set, hlen]; decide)]
  refine ⟨rfl, rfl, hm5, hm7, ?_, ?_, ?_⟩
  · rw [hm5, h5]
    intro hh
    exact h3 (Option.some.inj hh).symm
  · rw [hm7, h7]
    intro hh
    exact h4 (Option.some.inj hh).symm
  · intro i hi5 hi7
    rw [List.getElem?_set_ne (fun hh => hi7 hh.symm),
      List.getElem?_set_ne (fun hh => hi5 hh.symm)]

theorem masked_cmd_differs_only_at_secrets_witness :
    (buildCmd cfgEx "S" "E" "O")[4]? = some "--apiKeyId" ∧
    (buildCmd cfgEx "S" "E" "O")[6]? = some "--apiKey" ∧
    (maskCmd (buildCmd cfgEx "S" "E" "O"))[5]? = some "<redacted>" ∧
    (maskCmd (buildCmd cfgEx "S" "E" "O"))[7]? = some "<redacted>" ∧
    ¬((maskCmd (buildCmd cfgEx "S" "E" "O"))[5]? = (buildCmd cfgEx "S" "E" "O")[5]?) ∧
    ¬((maskCmd (buildCmd cfgEx "S" "E" "O"))[7]? = (buildCmd cfgEx "S" "E" "O")[7]?) ∧
    ∀ i, ¬(i = 5) → ¬(i = 7) →
      (maskCmd (buildCmd cfgEx "S" "E" "O"))[i]? = (buildCmd cfgEx "S" "E" "O")[i]? :=
  masked_cmd_differs_only_at_secrets cfgEx "S" "E" "O"
    (by decide) (by decide) (by decide) (by decide)
